import Mathlib

/-!
Shallow embedding of the hedera-backend service (server.js and nft.js).

External effects are modelled as explicit inputs:
* the pinning provider's behaviour on one POST is a `PinataOutcome`;
* each ledger transaction submission is an `Except String _` outcome
  (error = the ledger's rejection message, as `err.message`);
* the persisted hives file is part of a `ServerState`, together with the
  CommonJS require cache for `./data/hives.json` (require parses the file
  once per process and returns the cached value on later calls, while
  `markHiveAsSold` reads and rewrites the file directly via fs);
* a filesystem write that fails is modelled by the `writeOk` flag.

JavaScript truthiness on optional strings (`!x`) is modelled by `present`;
`x || d` on strings by `orDefault` and on numbers by `orDefaultNat`;
`Buffer.from(s).length` by `String.utf8ByteSize`.
-/

deriving instance DecidableEq for Except

/-- One entry of a metadata document's `attributes` array. -/
structure Attribute where
  trait_type : String
  value : String
deriving DecidableEq

/-- A metadata document as built by the service. -/
structure Metadata where
  name : String
  description : String
  image : String
  attributes : List Attribute
deriving DecidableEq

/-- One hive record of `data/hives.json`.  The status is the literal JSON
string (the code compares `hive.status === 'sold'`). -/
structure Hive where
  id : String
  name : String
  description : String
  image : String
  location : String
  farmer : String
  price : Nat
  status : String
  owner : Option String
  serialNumber : Option String
  soldAt : Option String
deriving DecidableEq

/-- Behaviour of the pinning provider on one POST: the fetch or the JSON
parse of the response rejects (`netError`), or a parsed JSON body whose
`IpfsHash` field is absent (`response none`) or the given string
(`response (some h)`; the empty string is falsy in JS). -/
inductive PinataOutcome where
  | netError
  | response (ipfsHash : Option String)
deriving DecidableEq

/-- Whether a `PinataOutcome` makes the try-block of `uploadToPinata`
throw: fetch failure, missing `IpfsHash`, or a falsy (empty) hash. -/
def PinataOutcome.isFailure : PinataOutcome → Bool
  | .netError => true
  | .response none => true
  | .response (some h) => h == ""

/-- JS truthiness of an optional string: absent and empty are falsy. -/
def present : Option String → Bool
  | none => false
  | some s => s != ""

/-- JS `x || d` for an optional string field. -/
def orDefault (v : Option String) (d : String) : String :=
  match v with
  | none => d
  | some s => if s == "" then d else s

/-- JS `x || d` for an optional number field (0 is falsy). -/
def orDefaultNat (v : Option Nat) (d : Nat) : Nat :=
  match v with
  | none => d
  | some n => if n == 0 then d else n

/-- JS `err.message || fallback` at the endpoint catch. -/
def errOr (e fallback : String) : String :=
  if e == "" then fallback else e

/-- The uploadToPinata function (identical in server.js and nft.js).
The try block first evaluates `metadata.attributes[0].value` (building the
pin name), so an empty attributes array throws before the fetch; any
provider failure also throws.  The catch returns the fallback
`"hive:" ++ v` where `v` is the value of the first attribute whose
trait_type is "Hive ID" — and itself throws a TypeError when no such
attribute exists (`.find` returns undefined). -/
def uploadToPinata (metadata : Metadata) (provider : PinataOutcome) :
    Except String String :=
  let tryResult : Except String String :=
    match metadata.attributes.head? with
    | none => .error "Cannot read properties of undefined (reading value)"
    | some _ =>
      match provider with
      | .netError => .error "fetch failed"
      | .response none => .error "Pinata failed"
      | .response (some h) =>
        if h == "" then .error "Pinata failed" else .ok ("ipfs://" ++ h)
  match tryResult with
  | .ok url => .ok url
  | .error _ =>
    match metadata.attributes.find? (fun a => a.trait_type == "Hive ID") with
    | some a => .ok ("hive:" ++ a.value)
    | none => .error "Cannot read properties of undefined (reading value)"

/-- Mutable state visible to one server process: the content of
`data/hives.json` (an `error` means reading or parsing it throws), and
the CommonJS require cache for that module. -/
structure ServerState where
  hivesFile : Except String (List Hive)
  requireCache : Option (List Hive)
deriving DecidableEq

/-- The `require('./data/hives.json')` call: returns the cached parsed
value when present, otherwise parses the current file and caches it. -/
def requireHives (s : ServerState) :
    Except String (List Hive × ServerState) :=
  match s.requireCache with
  | some hives => .ok (hives, s)
  | none =>
    match s.hivesFile with
    | .ok hives => .ok (hives, { s with requireCache := some hives })
    | .error e => .error e

/-- The `findIndex`-then-mutate step of markHiveAsSold: updates the first
record whose id matches, leaving the rest untouched. -/
def markSoldInList (hiveId buyer serial now : String) :
    List Hive → List Hive
  | [] => []
  | h :: rest =>
    if h.id == hiveId then
      { h with status := "sold", owner := some buyer,
               serialNumber := some serial, soldAt := some now } :: rest
    else h :: markSoldInList hiveId buyer serial now rest

/-- Try-block of markHiveAsSold: read and parse the file (may throw),
look up the record by id (`findIndex !== -1`), and when found rewrite the
whole file (the write may throw). When the id is absent nothing is
written and the function just returns. -/
def markHiveAsSoldBody (hiveId buyer serial now : String) (writeOk : Bool)
    (s : ServerState) : Except String ServerState :=
  match s.hivesFile with
  | .error e => .error e
  | .ok hives =>
    if hives.any (fun h => h.id == hiveId) then
      if writeOk then
        .ok { s with
          hivesFile := Except.ok (markSoldInList hiveId buyer serial now hives) }
      else .error "EACCES: write failed"
    else .ok s

/-- markHiveAsSold wraps its whole body in try/catch: every error is
swallowed (only logged) and the state is left as it was. -/
def markHiveAsSold (hiveId buyer serial now : String) (writeOk : Bool)
    (s : ServerState) : ServerState :=
  match markHiveAsSoldBody hiveId buyer serial now writeOk s with
  | .ok s' => s'
  | .error _ => s

/-- The configured allow-list: two localhost development origins plus
`process.env.FRONTEND_URL || 'https://your-frontend.onrender.com'`. -/
def allowedOrigins (frontendUrl : Option String) : List String :=
  ["http://localhost:5173", "http://localhost:3000",
   orDefault frontendUrl "https://your-frontend.onrender.com"]

/-- The cors origin callback: `!origin` (header absent, or present but
empty, both falsy) is admitted; otherwise the origin is admitted exactly
when it is in the allow-list. `true` means `callback(null, true)`,
`false` means `callback(new Error(...))`. -/
def corsOrigin (frontendUrl : Option String) (origin : Option String) :
    Bool :=
  match origin with
  | none => true
  | some o =>
    if o == "" then true else (allowedOrigins frontendUrl).contains o

/-- A JSON response together with its HTTP status.  `res.json(body)`
without an explicit status sends 200.  Fields absent from a given body
are `none`. -/
structure ApiResponse where
  status : Nat
  success : Bool
  error : Option String := none
  tokenId : Option String := none
  supplyKey : Option String := none
  adminKey : Option String := none
  transactionId : Option String := none
  serialNumber : Option String := none
  ipfsURL : Option String := none
  explorerUrl : Option String := none
  message : Option String := none
deriving DecidableEq

/-- Which external calls one request performed. -/
structure CallTrace where
  publishCalled : Bool
  mintCalled : Bool
  transferCalled : Bool
  markSoldCalled : Bool
deriving DecidableEq

/-- None of the external calls happened. -/
def CallTrace.none : CallTrace :=
  { publishCalled := false, mintCalled := false,
    transferCalled := false, markSoldCalled := false }

/-- Return value of createHiveTokenCollection in nft.js: either the
success object or, because the whole body is inside try/catch, the
failure object with the ledger's message — the function never throws. -/
structure CreateResult where
  success : Bool
  tokenId : Option String := none
  supplyKey : Option String := none
  adminKey : Option String := none
  transactionId : Option String := none
  error : Option String := none
deriving DecidableEq

/-- createHiveTokenCollection: generates two fresh keys (passed in here,
since key generation is an external effect), submits the signed
collection-creation transaction, and returns the receipt's token id and
the transaction id; any error is caught and returned as
`\x7bsuccess:false, error: error.message\x7d`. -/
def createHiveTokenCollection (supplyKey adminKey : String)
    (ledger : Except String (String × String)) : CreateResult :=
  match ledger with
  | .ok (tokenId, txId) =>
    { success := true, tokenId := some tokenId,
      supplyKey := some supplyKey, adminKey := some adminKey,
      transactionId := some txId }
  | .error e => { success := false, error := some e }

/-- The POST /api/create-token endpoint: on `result.success` it re-shapes
the object with 200; otherwise it forwards the failure object unchanged
via `res.json(result)` — still HTTP 200, since no status is set.  The
endpoint's own catch (500) is unreachable because
createHiveTokenCollection never throws. -/
def createTokenEndpoint (supplyKey adminKey : String)
    (ledger : Except String (String × String)) : ApiResponse :=
  let result := createHiveTokenCollection supplyKey adminKey ledger
  if result.success then
    { status := 200, success := true, tokenId := result.tokenId,
      supplyKey := result.supplyKey, adminKey := result.adminKey,
      transactionId := result.transactionId }
  else
    { status := 200, success := false, error := result.error }

/-- Request body of POST /api/mint-nft after destructuring: tokenId,
supplyKey, and the remaining hive attribute fields. -/
structure HiveMetadataInput where
  name : Option String := none
  description : Option String := none
  imageURL : Option String := none
  hiveId : Option String := none
  location : Option String := none
  farmer : Option String := none
  investmentAmount : Option Nat := none
  status : Option String := none
deriving DecidableEq

/-- The fullMetadata object built by mintHiveNFT, with its `||` defaults
(note the source's literal `$` in front of both the investment amount and
the status value). -/
def buildFullMetadata (m : HiveMetadataInput) : Metadata :=
  { name := orDefault m.name "Ecolive Hive",
    description := orDefault m.description "Beehive investment NFT",
    image := orDefault m.imageURL
      "https://via.placeholder.com/400x300?text=Beehive",
    attributes := [
      { trait_type := "Hive ID", value := orDefault m.hiveId "HIVE-001" },
      { trait_type := "Location",
        value := orDefault m.location "Nairobi, Kenya" },
      { trait_type := "Farmer", value := orDefault m.farmer "John Doe" },
      { trait_type := "Investment",
        value := "$" ++ toString (orDefaultNat m.investmentAmount 5000) },
      { trait_type := "Status",
        value := "$" ++ orDefault m.status "active" }] }

/-- Return object of mintHiveNFT (both branches of its try/catch). -/
structure MintResult where
  success : Bool
  serialNumber : Option String := none
  tokenId : Option String := none
  ipfsURL : Option String := none
  explorerUrl : Option String := none
  error : Option String := none
deriving DecidableEq

/-- mintHiveNFT of nft.js.  The missing-argument guard throws outside the
try block (hence the `Except` on the outside); everything else is caught
and returned as a failure object.  The returned Bool records whether a
mint transaction was submitted to the ledger: `false` whenever the
metadata pointer exceeded 100 bytes (checked before submission), `true`
once `execute` runs, also when the ledger then rejects it. -/
def mintHiveNFT (supplyKey tokenId : Option String)
    (m : HiveMetadataInput) (pinata : PinataOutcome)
    (ledgerMint : Except String Nat) :
    Except String (MintResult × Bool) :=
  if !(present tokenId) || !(present supplyKey) then
    .error "Token not created yet. Run createHiveTokenCollection() first."
  else
    match uploadToPinata (buildFullMetadata m) pinata with
    | .error e => .ok ({ success := false, error := some e }, false)
    | .ok ipfsURL =>
      if ipfsURL.utf8ByteSize > 100 then
        .ok ({ success := false,
               error := some ("Metadata too long: " ++
                 toString ipfsURL.utf8ByteSize ++ " bytes") }, false)
      else
        match ledgerMint with
        | .error e => .ok ({ success := false, error := some e }, true)
        | .ok serial =>
          .ok ({ success := true,
                 serialNumber := some (toString serial),
                 tokenId := tokenId,
                 ipfsURL := some ipfsURL,
                 explorerUrl := some ("https://hashscan.io/testnet/token/"
                   ++ tokenId.getD "" ++ "/" ++ toString serial) }, true)

/-- The POST /api/mint-nft endpoint: 400 when tokenId or supplyKey is
missing; then inside try it parses both (`parse` is the joint outcome of
`TokenId.fromString` and `PrivateKey.fromString`), calls mintHiveNFT and
sends its result object with `res.json` — HTTP 200 whether the result is
a success or a caught failure; only a thrown error reaches the 500 path.
Also returns whether a mint transaction was submitted. -/
def mintNftEndpoint (tokenIdStr supplyKeyStr : Option String)
    (m : HiveMetadataInput) (parse : Except String Unit)
    (pinata : PinataOutcome) (ledgerMint : Except String Nat) :
    ApiResponse × Bool :=
  if !(present tokenIdStr) || !(present supplyKeyStr) then
    ({ status := 400, success := false,
       error := some "Missing tokenId or supplyKey" }, false)
  else
    match parse with
    | .error e =>
      ({ status := 500, success := false,
         error := some (errOr e "Mint failed") }, false)
    | .ok _ =>
      match mintHiveNFT supplyKeyStr tokenIdStr m pinata ledgerMint with
      | .error e =>
        ({ status := 500, success := false,
           error := some (errOr e "Mint failed") }, false)
      | .ok (result, submitted) =>
        (if result.success then
          { status := 200, success := true,
            serialNumber := result.serialNumber,
            tokenId := result.tokenId, ipfsURL := result.ipfsURL,
            explorerUrl := result.explorerUrl }
         else
          { status := 200, success := false, error := result.error },
         submitted)

/-- Request body of POST /api/buy-hive after destructuring. -/
structure BuyHiveRequest where
  hiveId : Option String := none
  investorAccountId : Option String := none
  tokenId : Option String := none
  supplyKey : Option String := none
deriving DecidableEq

/-- External outcomes one buy-hive request can meet: the joint outcome of
the five `fromString` parses, the pinning provider's behaviour, the mint
and transfer submissions (transfer success carries the transaction id),
whether the hives-file rewrite succeeds, and the timestamp taken by
markHiveAsSold. -/
structure BuyEnv where
  parse : Except String Unit
  pinata : PinataOutcome
  mintResult : Except String Nat
  transferResult : Except String String
  writeOk : Bool
  now : String
deriving DecidableEq

/-- The metadata object built inline by the buy-hive handler. -/
def buildBuyMetadata (hive : Hive) (investorAccountId : String) :
    Metadata :=
  { name := hive.name, description := hive.description,
    image := hive.image,
    attributes := [
      { trait_type := "Hive ID", value := hive.id },
      { trait_type := "Location", value := hive.location },
      { trait_type := "Farmer", value := hive.farmer },
      { trait_type := "Investment",
        value := toString hive.price ++ " HBAR" },
      { trait_type := "Status", value := "sold" },
      { trait_type := "Owner", value := investorAccountId }] }

/-- The POST /api/buy-hive handler.  In source order: missing-field check
(400), the five fromString parses (a throw lands in the catch, 500 with
`err.message || 'Purchase failed'`), `require('./data/hives.json')` and
lookup by id (404), the already-sold check (400), metadata build and
upload, the 100-byte pointer check (a throw, so 500), mint, transfer,
markHiveAsSold, and the 200 success body.  Returns the response, the
resulting server state, and the trace of external calls. -/
def buyHive (req : BuyHiveRequest) (env : BuyEnv) (s : ServerState) :
    ApiResponse × ServerState × CallTrace :=
  if !(present req.tokenId) || !(present req.supplyKey) ||
      !(present req.investorAccountId) then
    ({ status := 400, success := false,
       error := some
         "Missing required fields: tokenId, supplyKey, or investorAccountId" },
     s, CallTrace.none)
  else
    match env.parse with
    | .error e =>
      ({ status := 500, success := false,
         error := some (errOr e "Purchase failed") }, s, CallTrace.none)
    | .ok _ =>
      match requireHives s with
      | .error e =>
        ({ status := 500, success := false,
           error := some (errOr e "Purchase failed") }, s, CallTrace.none)
      | .ok (hives, s1) =>
        match hives.find? (fun h => some h.id == req.hiveId) with
        | none =>
          ({ status := 404, success := false,
             error := some ("Hive with id " ++
               req.hiveId.getD "undefined" ++ " not found") },
           s1, CallTrace.none)
        | some hive =>
          if hive.status == "sold" then
            ({ status := 400, success := false,
               error := some "This hive has already been sold" },
             s1, CallTrace.none)
          else
            match uploadToPinata
                (buildBuyMetadata hive (req.investorAccountId.getD ""))
                env.pinata with
            | .error e =>
              ({ status := 500, success := false,
                 error := some (errOr e "Purchase failed") }, s1,
               { CallTrace.none with publishCalled := true })
            | .ok ipfsUrl =>
              if ipfsUrl.utf8ByteSize > 100 then
                ({ status := 500, success := false,
                   error := some "Metadata too big (max 100 bytes)" }, s1,
                 { CallTrace.none with publishCalled := true })
              else
                match env.mintResult with
                | .error e =>
                  ({ status := 500, success := false,
                     error := some (errOr e "Purchase failed") }, s1,
                   { publishCalled := true, mintCalled := true,
                     transferCalled := false, markSoldCalled := false })
                | .ok serial =>
                  match env.transferResult with
                  | .error e =>
                    ({ status := 500, success := false,
                       error := some (errOr e "Purchase failed") }, s1,
                     { publishCalled := true, mintCalled := true,
                       transferCalled := true, markSoldCalled := false })
                  | .ok txId =>
                    let s2 := markHiveAsSold (req.hiveId.getD "")
                      (req.investorAccountId.getD "")
                      (toString serial) env.now env.writeOk s1
                    ({ status := 200, success := true,
                       serialNumber := some (toString serial),
                       tokenId := req.tokenId,
                       explorerUrl := some
                         ("https://hashscan.io/testnet/token/" ++
                          req.tokenId.getD "" ++ "/" ++ toString serial),
                       transactionId := some txId,
                       message := some
                         "NFT minted and transferred to your wallet!" },
                     s2,
                     { publishCalled := true, mintCalled := true,
                       transferCalled := true, markSoldCalled := true })

/-! Concrete inputs used by counterexamples and witnesses. -/

/-- The seed record of the spec's concrete scenario (HIVE-001, available). -/
def demoHive : Hive :=
  { id := "HIVE-001", name := "Golden Hive", description := "Premium beehive",
    image := "https://example.com/hive1.jpg", location := "Nairobi, Kenya",
    farmer := "Jane Kamau", price := 5000, status := "available",
    owner := none, serialNumber := none, soldAt := none }

/-- A fresh process: the hives file holds the one available record and the
require cache is empty. -/
def demoState : ServerState :=
  { hivesFile := .ok [demoHive], requireCache := none }

/-- The spec's concrete buy request. -/
def demoReq : BuyHiveRequest :=
  { hiveId := some "HIVE-001", investorAccountId := some "0.0.1234",
    tokenId := some "0.0.5678", supplyKey := some "supplyKey1" }

/-- An environment where parsing, mint and transfer all succeed; the
pinning provider is unreachable, so the 13-byte fallback pointer
hive:HIVE-001 is used. -/
def demoEnv : BuyEnv :=
  { parse := .ok (), pinata := .netError, mintResult := .ok 1,
    transferResult := .ok "0.0.1111@1700000000.000000001",
    writeOk := true, now := "2026-01-01T00:00:00.000Z" }

/-- A metadata document with no "Hive ID" attribute. -/
def noHiveIdDoc : Metadata :=
  { name := "X", description := "Y", image := "Z",
    attributes := [{ trait_type := "Location", value := "Nairobi" }] }

/-- A 100-character content hash, making the pointer ipfs://... exceed
the 100-byte bound. -/
def longHash : String := String.mk (List.replicate 100 'Q')

/-- An empty mint-nft body: every hive attribute falls back to its
default, so the built document's first Hive ID value is HIVE-001. -/
def demoMintInput : HiveMetadataInput := {}

/-- demoState after require has populated its cache. -/
def demoStateCached : ServerState :=
  { hivesFile := .ok [demoHive], requireCache := some [demoHive] }

/-- demoEnv with the transfer transaction rejected by the ledger. -/
def demoEnvTransferFail : BuyEnv :=
  { demoEnv with transferResult := .error "TX_REJECTED" }

/-- demoEnv with the mint transaction rejected by the ledger. -/
def demoEnvMintFail : BuyEnv :=
  { demoEnv with mintResult := .error "TX_REJECTED" }

/-- demoEnv with the mint rejected and an empty ledger message, the case
where the buy-hive catch substitutes its generic message. -/
def demoEnvMintFailEmpty : BuyEnv :=
  { demoEnv with mintResult := .error "" }

/-- demoEnv where the provider answers with the 100-character hash, so
the pointer ipfs://QQQ... is 107 bytes long. -/
def demoEnvLongHash : BuyEnv :=
  { demoEnv with pinata := .response (some longHash) }

/-- demoEnv where rewriting the hives file fails. -/
def demoEnvWriteFail : BuyEnv := { demoEnv with writeOk := false }

/-- The demo request with the investor account id missing. -/
def demoReqMissing : BuyHiveRequest :=
  { demoReq with investorAccountId := none }

/-- The demo request naming a hive id absent from the store. -/
def demoReqUnknown : BuyHiveRequest := { demoReq with hiveId := some "HIVE-999" }

/-- The demo record already sold. -/
def demoHiveSold : Hive := { demoHive with status := "sold" }

/-- A fresh process whose store holds only the sold record. -/
def soldState : ServerState :=
  { hivesFile := .ok [demoHiveSold], requireCache := none }

/-- soldState after require has populated its cache. -/
def soldStateCached : ServerState :=
  { hivesFile := .ok [demoHiveSold], requireCache := some [demoHiveSold] }

/-! Helper lemmas shared by several claims. -/

/-- When the rewrite of the hives file fails, markHiveAsSold leaves the
state exactly as it was (the error is caught and only logged). -/
theorem markHiveAsSold_writeFail (hiveId buyer serial now : String)
    (s : ServerState) :
    markHiveAsSold hiveId buyer serial now false s = s := by
  unfold markHiveAsSold markHiveAsSoldBody
  cases hf : s.hivesFile with
  | error e => rfl
  | ok l =>
    cases ha : l.any (fun h => h.id == hiveId) with
    | true => simp [ha]
    | false => simp [ha]

/-- A successful require leaves the persisted file untouched (it may only
populate the cache). -/
theorem requireHives_preserves_file (s : ServerState) (hives : List Hive)
    (s1 : ServerState) (h : requireHives s = .ok (hives, s1)) :
    s1.hivesFile = s.hivesFile := by
  unfold requireHives at h
  cases hc : s.requireCache with
  | some l =>
    rw [hc] at h
    simp only [Except.ok.injEq, Prod.mk.injEq] at h
    rw [← h.2]
  | none =>
    rw [hc] at h
    cases hf : s.hivesFile with
    | ok l =>
      rw [hf] at h
      simp only [Except.ok.injEq, Prod.mk.injEq] at h
      rw [← h.2]
    | error e => rw [hf] at h; exact absurd h (by simp)

/-- On any provider failure, uploadToPinata returns the fallback pointer
built from the first "Hive ID" attribute. -/
theorem uploadToPinata_failure_fallback (m : Metadata) (po : PinataOutcome)
    (a : Attribute) (hpo : po.isFailure = true)
    (hfind : m.attributes.find? (fun x => x.trait_type == "Hive ID") = some a) :
    uploadToPinata m po = .ok ("hive:" ++ a.value) := by
  unfold uploadToPinata
  cases hh : m.attributes.head? with
  | none => simp [hfind]
  | some x =>
    cases po with
    | netError => simp [hfind]
    | response oh =>
      cases oh with
      | none => simp [hfind]
      | some h =>
        simp only [PinataOutcome.isFailure] at hpo
        simp [hpo, hfind]

/-! Claim theorems. -/

/-- C1: the claim fails on the code.  After the first successful purchase
of HIVE-001 the persisted record is sold, but the handler's
`require('./data/hives.json')` returns the module-cache copy parsed
before that sale, so a second POST /api/buy-hive for the same hive id is
not rejected with 400 "This hive has already been sold": it responds 200
and performs publish, mint and transfer again.  The spec's premise that
the store re-loads the collection on every access (no in-memory cache) is
exactly what the require cache violates. -/
theorem c1_second_purchase_not_rejected :
    (buyHive demoReq demoEnv demoState).1.status = 200 ∧
    (buyHive demoReq demoEnv demoState).2.1.hivesFile =
      .ok [{ demoHive with
               status := "sold",
               owner := some "0.0.1234",
               serialNumber := some "1",
               soldAt := some "2026-01-01T00:00:00.000Z" }] ∧
    (buyHive demoReq demoEnv
      (buyHive demoReq demoEnv demoState).2.1).1.status = 200 ∧
    (buyHive demoReq demoEnv
      (buyHive demoReq demoEnv demoState).2.1).1.error = none ∧
    (buyHive demoReq demoEnv
      (buyHive demoReq demoEnv demoState).2.1).2.2.publishCalled = true ∧
    (buyHive demoReq demoEnv
      (buyHive demoReq demoEnv demoState).2.1).2.2.mintCalled = true ∧
    (buyHive demoReq demoEnv
      (buyHive demoReq demoEnv demoState).2.1).2.2.transferCalled = true :=
  ⟨rfl, rfl, rfl, rfl, rfl, rfl, rfl⟩

/-- C3 counterexample: on a metadata document with no "Hive ID"
attribute and an unreachable provider, the catch block's
`.find(...).value` itself throws, so uploadToPinata does raise to its
caller instead of returning a fallback identifier. -/
theorem c3_counterexample :
    uploadToPinata noHiveIdDoc PinataOutcome.netError =
      .error "Cannot read properties of undefined (reading value)" := rfl

/-- C3 (amended): for every metadata document that carries an attribute
with trait_type "Hive ID", uploadToPinata never raises on a pinning
failure (network error, malformed response, missing or empty content
hash): it returns the fallback identifier hive:<hive-id> built from the
first such attribute.  Documents without that attribute make the fallback
itself throw. -/
theorem c3_fallback_on_failure (m : Metadata) (po : PinataOutcome)
    (a : Attribute) (hpo : po.isFailure = true)
    (hfind : m.attributes.find? (fun x => x.trait_type == "Hive ID") = some a) :
    uploadToPinata m po = .ok ("hive:" ++ a.value) :=
  uploadToPinata_failure_fallback m po a hpo hfind

/-- C3 witness: the default mint document falls back to hive:HIVE-001. -/
theorem c3_witness :
    uploadToPinata (buildFullMetadata demoMintInput) PinataOutcome.netError =
      .ok ("hive:" ++ "HIVE-001") :=
  c3_fallback_on_failure (buildFullMetadata demoMintInput)
    PinataOutcome.netError { trait_type := "Hive ID", value := "HIVE-001" }
    (by decide) (by decide)

/-- C4: in the purchase workflow, when the mint succeeds and the
subsequent transfer is rejected, the request fails with 500, the mint is
not undone (the workflow has no compensating ledger call: the trace shows
the mint happened and nothing else follows), markHiveAsSold is never
invoked, and the persisted hives file is exactly the one the request
started from, so the record's status stays available. -/
theorem c4_transfer_failure_leaves_record_available
    (req : BuyHiveRequest) (env : BuyEnv) (s s1 : ServerState)
    (hives : List Hive) (hive : Hive) (uri : String) (n : Nat) (e : String)
    (hb1 : present req.tokenId = true) (hb2 : present req.supplyKey = true)
    (hb3 : present req.investorAccountId = true)
    (hbp : env.parse = .ok ())
    (hreq : requireHives s = .ok (hives, s1))
    (hfind : hives.find? (fun h => some h.id == req.hiveId) = some hive)
    (hsold : hive.status ≠ "sold")
    (hup : uploadToPinata (buildBuyMetadata hive (req.investorAccountId.getD ""))
      env.pinata = .ok uri)
    (hlen : uri.utf8ByteSize ≤ 100)
    (hmint : env.mintResult = .ok n)
    (htr : env.transferResult = .error e) :
    (buyHive req env s).1.status = 500 ∧
    (buyHive req env s).1.success = false ∧
    (buyHive req env s).2.2.mintCalled = true ∧
    (buyHive req env s).2.2.transferCalled = true ∧
    (buyHive req env s).2.2.markSoldCalled = false ∧
    (buyHive req env s).2.1.hivesFile = s.hivesFile := by
  have hsold' : (hive.status == "sold") = false := by
    simp only [beq_eq_false_iff_ne, ne_eq]; exact hsold
  have hn : ¬ (uri.utf8ByteSize > 100) := not_lt.mpr hlen
  have hfile := requireHives_preserves_file s hives s1 hreq
  simp only [buyHive, hb1, hb2, hb3, Bool.not_true, Bool.or_self,
    Bool.or_false, Bool.false_or, if_false, Bool.false_eq_true, hbp, hreq,
    hfind, hsold', hup, hmint, htr, if_neg hn]
  simp [hfile]

/-- C4 witness: the demo purchase with a rejected transfer. -/
theorem c4_witness :
    (buyHive demoReq demoEnvTransferFail demoState).1.status = 500 ∧
    (buyHive demoReq demoEnvTransferFail demoState).1.success = false ∧
    (buyHive demoReq demoEnvTransferFail demoState).2.2.mintCalled = true ∧
    (buyHive demoReq demoEnvTransferFail demoState).2.2.transferCalled = true ∧
    (buyHive demoReq demoEnvTransferFail demoState).2.2.markSoldCalled = false ∧
    (buyHive demoReq demoEnvTransferFail demoState).2.1.hivesFile =
      demoState.hivesFile :=
  c4_transfer_failure_leaves_record_available demoReq demoEnvTransferFail
    demoState demoStateCached [demoHive] demoHive "hive:HIVE-001" 1
    "TX_REJECTED" (by decide) (by decide) (by decide) (by decide)
    (by decide) (by decide) (by decide) (by decide) (by decide) (by decide)
    (by decide)

/-- C2 counterexample: when the ledger rejects the collection-creation
transaction, createHiveTokenCollection catches the error internally and
returns the failure object, and the endpoint forwards it with
`res.json(result)` — HTTP 200, not the claimed 500 (the message itself is
passed through verbatim). -/
theorem c2_counterexample :
    (createTokenEndpoint "sk" "ak" (.error "INSUFFICIENT_TX_FEE")).status
      = 200 ∧
    ¬ (createTokenEndpoint "sk" "ak"
        (.error "INSUFFICIENT_TX_FEE")).status = 500 ∧
    (createTokenEndpoint "sk" "ak" (.error "INSUFFICIENT_TX_FEE")).error
      = some "INSUFFICIENT_TX_FEE" :=
  ⟨rfl, by decide, rfl⟩

/-- C2 (amended): when the ledger rejects the submitted transaction —
collection creation, the standalone mint, or either ledger stage (mint or
transfer) of the purchase workflow — the response body is success:false
with the ledger's message, but the HTTP status is 200 for POST
/api/create-token and POST /api/mint-nft (their module functions catch
the error internally, verbatim even when empty, and the endpoints forward
the failure object with res.json and no explicit status), and 500 only
for POST /api/buy-hive, where the message is passed through verbatim when
non-empty and an empty message becomes "Purchase failed". -/
theorem c2_ledger_error_propagation
    (sk ak e : String)
    (tid skStr : Option String) (m : HiveMetadataInput)
    (po : PinataOutcome) (uri : String)
    (h1 : present tid = true) (h2 : present skStr = true)
    (hup : uploadToPinata (buildFullMetadata m) po = .ok uri)
    (hlen : uri.utf8ByteSize ≤ 100)
    (req : BuyHiveRequest) (env : BuyEnv) (s s1 : ServerState)
    (hives : List Hive) (hive : Hive) (uri2 : String) (n : Nat)
    (hb1 : present req.tokenId = true) (hb2 : present req.supplyKey = true)
    (hb3 : present req.investorAccountId = true)
    (hbp : env.parse = .ok ())
    (hreq : requireHives s = .ok (hives, s1))
    (hfind : hives.find? (fun h => some h.id == req.hiveId) = some hive)
    (hsold : hive.status ≠ "sold")
    (hup2 : uploadToPinata (buildBuyMetadata hive (req.investorAccountId.getD ""))
      env.pinata = .ok uri2)
    (hlen2 : uri2.utf8ByteSize ≤ 100)
    (hledger : env.mintResult = .error e ∨
      (env.mintResult = .ok n ∧ env.transferResult = .error e)) :
    (createTokenEndpoint sk ak (.error e)).status = 200 ∧
    (createTokenEndpoint sk ak (.error e)).success = false ∧
    (createTokenEndpoint sk ak (.error e)).error = some e ∧
    (mintNftEndpoint tid skStr m (.ok ()) po (.error e)).1.status = 200 ∧
    (mintNftEndpoint tid skStr m (.ok ()) po (.error e)).1.success = false ∧
    (mintNftEndpoint tid skStr m (.ok ()) po (.error e)).1.error = some e ∧
    (buyHive req env s).1.status = 500 ∧
    (buyHive req env s).1.success = false ∧
    (buyHive req env s).1.error =
      some (if e = "" then "Purchase failed" else e) := by
  have hsold' : (hive.status == "sold") = false := by
    simp only [beq_eq_false_iff_ne, ne_eq]; exact hsold
  have hn : ¬ (uri.utf8ByteSize > 100) := not_lt.mpr hlen
  have hn2 : ¬ (uri2.utf8ByteSize > 100) := not_lt.mpr hlen2
  have herr : errOr e "Purchase failed" =
      if e = "" then "Purchase failed" else e := by
    simp [errOr]
  rcases hledger with hmint | ⟨hmint, htr⟩
  · refine ⟨rfl, rfl, rfl, ?_, ?_, ?_, ?_, ?_, ?_⟩ <;>
      simp only [mintNftEndpoint, mintHiveNFT, buyHive, h1, h2, hb1, hb2,
        hb3, Bool.not_true, Bool.or_self, Bool.or_false, Bool.false_or,
        if_false, Bool.false_eq_true, hbp, hreq, hfind, hsold', hup, hup2,
        hmint, if_neg hn, if_neg hn2, herr]
  · refine ⟨rfl, rfl, rfl, ?_, ?_, ?_, ?_, ?_, ?_⟩ <;>
      simp only [mintNftEndpoint, mintHiveNFT, buyHive, h1, h2, hb1, hb2,
        hb3, Bool.not_true, Bool.or_self, Bool.or_false, Bool.false_or,
        if_false, Bool.false_eq_true, hbp, hreq, hfind, hsold', hup, hup2,
        hmint, htr, if_neg hn, if_neg hn2, herr]

/-- C2 witness: a mint-stage ledger rejection with an empty message —
create-token and mint-nft forward the empty message verbatim with 200,
and buy-hive responds 500 with the substituted "Purchase failed". -/
theorem c2_witness :
    (createTokenEndpoint "sk" "ak" (.error "")).status = 200 ∧
    (createTokenEndpoint "sk" "ak" (.error "")).success = false ∧
    (createTokenEndpoint "sk" "ak" (.error "")).error = some "" ∧
    (mintNftEndpoint (some "0.0.5678") (some "supplyKey1") demoMintInput
      (.ok ()) PinataOutcome.netError (.error "")).1.status = 200 ∧
    (mintNftEndpoint (some "0.0.5678") (some "supplyKey1") demoMintInput
      (.ok ()) PinataOutcome.netError (.error "")).1.success = false ∧
    (mintNftEndpoint (some "0.0.5678") (some "supplyKey1") demoMintInput
      (.ok ()) PinataOutcome.netError (.error "")).1.error = some "" ∧
    (buyHive demoReq demoEnvMintFailEmpty demoState).1.status = 500 ∧
    (buyHive demoReq demoEnvMintFailEmpty demoState).1.success = false ∧
    (buyHive demoReq demoEnvMintFailEmpty demoState).1.error =
      some (if ("" : String) = "" then "Purchase failed" else "") :=
  c2_ledger_error_propagation "sk" "ak" ""
    (some "0.0.5678") (some "supplyKey1") demoMintInput
    PinataOutcome.netError "hive:HIVE-001" (by decide) (by decide)
    (by decide) (by decide) demoReq demoEnvMintFailEmpty demoState
    demoStateCached [demoHive] demoHive "hive:HIVE-001" 1 (by decide)
    (by decide) (by decide) (by decide) (by decide) (by decide) (by decide)
    (by decide) (by decide) (Or.inl (by decide))

/-- C5: whenever the metadata pointer's UTF-8 encoding exceeds 100 bytes,
the mint fails locally before any mint transaction is submitted.  In
mintHiveNFT the returned flag is false for every possible ledger outcome
(the ledger is never consulted) and the caught error is the
metadata-too-long message; in the purchase workflow the request fails 500
with "Metadata too big (max 100 bytes)", no mint or transfer call is
made, and the persisted file is untouched. -/
theorem c5_metadata_size_checked_before_submission
    (skStr tid : Option String) (m : HiveMetadataInput)
    (po : PinataOutcome) (lm : Except String Nat) (uri : String)
    (h1 : present tid = true) (h2 : present skStr = true)
    (hup : uploadToPinata (buildFullMetadata m) po = .ok uri)
    (hlen : uri.utf8ByteSize > 100)
    (req : BuyHiveRequest) (env : BuyEnv) (s s1 : ServerState)
    (hives : List Hive) (hive : Hive) (uri2 : String)
    (hb1 : present req.tokenId = true) (hb2 : present req.supplyKey = true)
    (hb3 : present req.investorAccountId = true)
    (hbp : env.parse = .ok ())
    (hreq : requireHives s = .ok (hives, s1))
    (hfind : hives.find? (fun h => some h.id == req.hiveId) = some hive)
    (hsold : hive.status ≠ "sold")
    (hup2 : uploadToPinata (buildBuyMetadata hive (req.investorAccountId.getD ""))
      env.pinata = .ok uri2)
    (hlen2 : uri2.utf8ByteSize > 100) :
    mintHiveNFT skStr tid m po lm =
      .ok ({ success := false,
             error := some ("Metadata too long: " ++
               toString uri.utf8ByteSize ++ " bytes") }, false) ∧
    (buyHive req env s).1.status = 500 ∧
    (buyHive req env s).1.error = some "Metadata too big (max 100 bytes)" ∧
    (buyHive req env s).2.2.mintCalled = false ∧
    (buyHive req env s).2.2.transferCalled = false ∧
    (buyHive req env s).2.1.hivesFile = s.hivesFile := by
  have hsold' : (hive.status == "sold") = false := by
    simp only [beq_eq_false_iff_ne, ne_eq]; exact hsold
  have hfile := requireHives_preserves_file s hives s1 hreq
  refine ⟨?_, ?_, ?_, ?_, ?_, ?_⟩ <;>
    simp only [mintHiveNFT, buyHive, h1, h2, hb1, hb2, hb3, Bool.not_true,
      Bool.or_self, Bool.or_false, Bool.false_or, if_false,
      Bool.false_eq_true, hbp, hreq, hfind, hsold', hup, hup2,
      if_pos hlen, if_pos hlen2, hfile, CallTrace.none]

/-- C5 witness: the provider returns a 100-character hash, so the pointer
is 107 bytes long and both paths reject locally. -/
theorem c5_witness :
    mintHiveNFT (some "supplyKey1") (some "0.0.5678") demoMintInput
      (.response (some longHash)) (.ok 1) =
      .ok ({ success := false,
             error := some ("Metadata too long: " ++
               toString ("ipfs://" ++ longHash).utf8ByteSize ++
               " bytes") }, false) ∧
    (buyHive demoReq demoEnvLongHash demoState).1.status = 500 ∧
    (buyHive demoReq demoEnvLongHash demoState).1.error =
      some "Metadata too big (max 100 bytes)" ∧
    (buyHive demoReq demoEnvLongHash demoState).2.2.mintCalled = false ∧
    (buyHive demoReq demoEnvLongHash demoState).2.2.transferCalled = false ∧
    (buyHive demoReq demoEnvLongHash demoState).2.1.hivesFile =
      demoState.hivesFile :=
  c5_metadata_size_checked_before_submission (some "supplyKey1")
    (some "0.0.5678") demoMintInput (.response (some longHash)) (.ok 1)
    ("ipfs://" ++ longHash) (by decide) (by decide) (by decide) (by decide)
    demoReq demoEnvLongHash demoState demoStateCached [demoHive] demoHive
    ("ipfs://" ++ longHash) (by decide) (by decide) (by decide) (by decide)
    (by decide) (by decide) (by decide) (by decide) (by decide)

/-- C6: when the mint transaction is rejected, the purchase workflow
fails with 500, never attempts a transfer, never calls markHiveAsSold,
and leaves the persisted file (hence the record's available status)
untouched. -/
theorem c6_mint_failure_stops_workflow
    (req : BuyHiveRequest) (env : BuyEnv) (s s1 : ServerState)
    (hives : List Hive) (hive : Hive) (uri : String) (e : String)
    (hb1 : present req.tokenId = true) (hb2 : present req.supplyKey = true)
    (hb3 : present req.investorAccountId = true)
    (hbp : env.parse = .ok ())
    (hreq : requireHives s = .ok (hives, s1))
    (hfind : hives.find? (fun h => some h.id == req.hiveId) = some hive)
    (hsold : hive.status ≠ "sold")
    (hup : uploadToPinata (buildBuyMetadata hive (req.investorAccountId.getD ""))
      env.pinata = .ok uri)
    (hlen : uri.utf8ByteSize ≤ 100)
    (hmint : env.mintResult = .error e) :
    (buyHive req env s).1.status = 500 ∧
    (buyHive req env s).1.success = false ∧
    (buyHive req env s).2.2.mintCalled = true ∧
    (buyHive req env s).2.2.transferCalled = false ∧
    (buyHive req env s).2.2.markSoldCalled = false ∧
    (buyHive req env s).2.1.hivesFile = s.hivesFile := by
  have hsold' : (hive.status == "sold") = false := by
    simp only [beq_eq_false_iff_ne, ne_eq]; exact hsold
  have hn : ¬ (uri.utf8ByteSize > 100) := not_lt.mpr hlen
  have hfile := requireHives_preserves_file s hives s1 hreq
  simp only [buyHive, hb1, hb2, hb3, Bool.not_true, Bool.or_self,
    Bool.or_false, Bool.false_or, if_false, Bool.false_eq_true, hbp, hreq,
    hfind, hsold', hup, hmint, if_neg hn]
  simp [hfile]

/-- C6 witness: the demo purchase with a rejected mint. -/
theorem c6_witness :
    (buyHive demoReq demoEnvMintFail demoState).1.status = 500 ∧
    (buyHive demoReq demoEnvMintFail demoState).1.success = false ∧
    (buyHive demoReq demoEnvMintFail demoState).2.2.mintCalled = true ∧
    (buyHive demoReq demoEnvMintFail demoState).2.2.transferCalled = false ∧
    (buyHive demoReq demoEnvMintFail demoState).2.2.markSoldCalled = false ∧
    (buyHive demoReq demoEnvMintFail demoState).2.1.hivesFile =
      demoState.hivesFile :=
  c6_mint_failure_stops_workflow demoReq demoEnvMintFail demoState
    demoStateCached [demoHive] demoHive "hive:HIVE-001" "TX_REJECTED"
    (by decide) (by decide) (by decide) (by decide) (by decide) (by decide)
    (by decide) (by decide) (by decide) (by decide)

/-- C7: the metadata-publish fallback is deterministic: two calls whose
documents carry the same value in their first "Hive ID" attribute, both
meeting a failing provider, return the same fallback pointer. -/
theorem c7_fallback_deterministic (m1 m2 : Metadata)
    (po1 po2 : PinataOutcome) (a1 a2 : Attribute) (hv : a1.value = a2.value)
    (hpo1 : po1.isFailure = true) (hpo2 : po2.isFailure = true)
    (h1 : m1.attributes.find? (fun x => x.trait_type == "Hive ID") = some a1)
    (h2 : m2.attributes.find? (fun x => x.trait_type == "Hive ID") = some a2) :
    uploadToPinata m1 po1 = uploadToPinata m2 po2 := by
  rw [uploadToPinata_failure_fallback m1 po1 a1 hpo1 h1,
    uploadToPinata_failure_fallback m2 po2 a2 hpo2 h2, hv]

/-- C7 witness: the default mint document against an unreachable provider
and the demo purchase document against a provider whose response lacks a
content hash both fall back to hive:HIVE-001. -/
theorem c7_witness :
    uploadToPinata (buildFullMetadata demoMintInput)
      PinataOutcome.netError =
    uploadToPinata (buildBuyMetadata demoHive "0.0.1234")
      (PinataOutcome.response none) :=
  c7_fallback_deterministic (buildFullMetadata demoMintInput)
    (buildBuyMetadata demoHive "0.0.1234") PinataOutcome.netError
    (PinataOutcome.response none)
    { trait_type := "Hive ID", value := "HIVE-001" }
    { trait_type := "Hive ID", value := "HIVE-001" }
    rfl (by decide) (by decide) (by decide) (by decide)

/-- C8: the purchase workflow validates in source order.  Missing
tokenId, supplyKey or investorAccountId gives 400 (whatever the store
holds); with all three present and parsed, an unknown hive id gives 404;
a found record whose status is sold gives 400 "This hive has already been
sold".  In each rejection the returned trace shows no publish, mint,
transfer or markHiveAsSold call, and the persisted file is unchanged (the
only state the request may touch is the require cache). -/
theorem c8_validation_order
    (req : BuyHiveRequest) (env : BuyEnv) (s s1 : ServerState)
    (hives : List Hive) :
    (present req.tokenId = false ∨ present req.supplyKey = false ∨
        present req.investorAccountId = false →
      buyHive req env s =
        ({ status := 400, success := false,
           error := some
             "Missing required fields: tokenId, supplyKey, or investorAccountId" },
         s, CallTrace.none)) ∧
    (present req.tokenId = true → present req.supplyKey = true →
      present req.investorAccountId = true → env.parse = .ok () →
      requireHives s = .ok (hives, s1) →
      hives.find? (fun h => some h.id == req.hiveId) = none →
      buyHive req env s =
        ({ status := 404, success := false,
           error := some ("Hive with id " ++ req.hiveId.getD "undefined" ++
             " not found") }, s1, CallTrace.none) ∧
      s1.hivesFile = s.hivesFile) ∧
    (∀ hive : Hive, present req.tokenId = true →
      present req.supplyKey = true →
      present req.investorAccountId = true → env.parse = .ok () →
      requireHives s = .ok (hives, s1) →
      hives.find? (fun h => some h.id == req.hiveId) = some hive →
      hive.status = "sold" →
      buyHive req env s =
        ({ status := 400, success := false,
           error := some "This hive has already been sold" },
         s1, CallTrace.none) ∧
      s1.hivesFile = s.hivesFile) := by
  refine ⟨?_, ?_, ?_⟩
  · rintro (h | h | h) <;> simp [buyHive, h]
  · intro h1 h2 h3 hp hr hf
    refine ⟨?_, requireHives_preserves_file s hives s1 hr⟩
    simp only [buyHive, h1, h2, h3, Bool.not_true, Bool.or_self,
      Bool.or_false, Bool.false_or, if_false, Bool.false_eq_true, hp, hr,
      hf]
  · intro hive h1 h2 h3 hp hr hf hsold
    have hsold' : (hive.status == "sold") = true := by simp [hsold]
    refine ⟨?_, requireHives_preserves_file s hives s1 hr⟩
    simp only [buyHive, h1, h2, h3, Bool.not_true, Bool.or_self,
      Bool.or_false, Bool.false_or, if_false, Bool.false_eq_true, hp, hr,
      hf, hsold', if_true]

/-- C8 witness: the three rejections at concrete inputs — a request with
no investor account, a request for HIVE-999, and a request for a record
already sold. -/
theorem c8_witness :
    buyHive demoReqMissing demoEnv demoState =
      ({ status := 400, success := false,
         error := some
           "Missing required fields: tokenId, supplyKey, or investorAccountId" },
       demoState, CallTrace.none) ∧
    (buyHive demoReqUnknown demoEnv demoState =
      ({ status := 404, success := false,
         error := some "Hive with id HIVE-999 not found" },
       demoStateCached, CallTrace.none) ∧
      demoStateCached.hivesFile = demoState.hivesFile) ∧
    (buyHive demoReq demoEnv soldState =
      ({ status := 400, success := false,
         error := some "This hive has already been sold" },
       soldStateCached, CallTrace.none) ∧
      soldStateCached.hivesFile = soldState.hivesFile) :=
  ⟨(c8_validation_order demoReqMissing demoEnv demoState demoState []).1
      (Or.inr (Or.inr (by decide))),
   (c8_validation_order demoReqUnknown demoEnv demoState demoStateCached
      [demoHive]).2.1 (by decide) (by decide) (by decide) (by decide)
      (by decide) (by decide),
   (c8_validation_order demoReq demoEnv soldState soldStateCached
      [demoHiveSold]).2.2 demoHiveSold (by decide) (by decide) (by decide)
      (by decide) (by decide) (by decide) (by decide)⟩

/-- C9 counterexample: a request whose Origin header is present but
empty is admitted by the code's falsy check even though the empty string
is not a member of the allow-list, contradicting the claim's "rejects
otherwise". -/
theorem c9_counterexample :
    corsOrigin Option.none (some "") = true ∧
    (allowedOrigins Option.none).contains "" = false := by decide

/-- C9 (amended): a request with no Origin header — or with an empty
Origin value, which the code's falsy check treats the same way — is
admitted; any other Origin value is admitted exactly when it is a member
of the configured allow-list, and rejected otherwise. -/
theorem c9_cors_policy (frontendUrl : Option String) (o : String)
    (ho : o ≠ "") :
    corsOrigin frontendUrl Option.none = true ∧
    corsOrigin frontendUrl (some "") = true ∧
    corsOrigin frontendUrl (some o) =
      (allowedOrigins frontendUrl).contains o := by
  have ho' : (o == "") = false := by
    simp only [beq_eq_false_iff_ne, ne_eq]; exact ho
  exact ⟨rfl, rfl, by simp [corsOrigin, ho']⟩

/-- C9 witness: with FRONTEND_URL unset, the development origin is
admitted via allow-list membership and the header-free request is
admitted. -/
theorem c9_witness :
    corsOrigin Option.none Option.none = true ∧
    corsOrigin Option.none (some "") = true ∧
    corsOrigin Option.none (some "http://localhost:5173") =
      (allowedOrigins Option.none).contains "http://localhost:5173" :=
  c9_cors_policy Option.none "http://localhost:5173" (by decide)

/-- C10: markHiveAsSold never propagates an error: an unreadable or
unparsable file, an id absent from the file, and a failing rewrite all
leave the state untouched and return normally; consequently a purchase
whose mint and transfer succeed responds 200 success:true with the
success message even though the commit failed and the persisted file
still holds the record unchanged. -/
theorem c10_marksold_swallows_failures
    (hiveId buyer serial now : String) (writeOk : Bool) (s : ServerState)
    (e : String) (l : List Hive)
    (req : BuyHiveRequest) (env : BuyEnv) (s0 s1 : ServerState)
    (hives : List Hive) (hive : Hive) (uri : String) (n : Nat) (tx : String)
    (hb1 : present req.tokenId = true) (hb2 : present req.supplyKey = true)
    (hb3 : present req.investorAccountId = true)
    (hbp : env.parse = .ok ())
    (hreq : requireHives s0 = .ok (hives, s1))
    (hfind : hives.find? (fun h => some h.id == req.hiveId) = some hive)
    (hsold : hive.status ≠ "sold")
    (hup : uploadToPinata (buildBuyMetadata hive (req.investorAccountId.getD ""))
      env.pinata = .ok uri)
    (hlen : uri.utf8ByteSize ≤ 100)
    (hmint : env.mintResult = .ok n)
    (htr : env.transferResult = .ok tx)
    (hwr : env.writeOk = false) :
    (s.hivesFile = .error e →
      markHiveAsSold hiveId buyer serial now writeOk s = s) ∧
    (s.hivesFile = .ok l → l.any (fun h => h.id == hiveId) = false →
      markHiveAsSold hiveId buyer serial now writeOk s = s) ∧
    markHiveAsSold hiveId buyer serial now false s = s ∧
    ((buyHive req env s0).1.status = 200 ∧
     (buyHive req env s0).1.success = true ∧
     (buyHive req env s0).1.message =
       some "NFT minted and transferred to your wallet!" ∧
     (buyHive req env s0).2.1.hivesFile = s0.hivesFile) := by
  have hsold' : (hive.status == "sold") = false := by
    simp only [beq_eq_false_iff_ne, ne_eq]; exact hsold
  have hn : ¬ (uri.utf8ByteSize > 100) := not_lt.mpr hlen
  have hfile := requireHives_preserves_file s0 hives s1 hreq
  refine ⟨?_, ?_, markHiveAsSold_writeFail hiveId buyer serial now s, ?_⟩
  · intro h; simp [markHiveAsSold, markHiveAsSoldBody, h]
  · intro h hany; simp [markHiveAsSold, markHiveAsSoldBody, h, hany]
  · simp only [buyHive, hb1, hb2, hb3, Bool.not_true, Bool.or_self,
      Bool.or_false, Bool.false_or, if_false, Bool.false_eq_true, hbp,
      hreq, hfind, hsold', hup, hmint, htr, if_neg hn, hwr,
      markHiveAsSold_writeFail]
    simp [hfile]

/-- C10 witness: the demo purchase with a failing hives-file rewrite,
plus the three markHiveAsSold no-op cases at concrete states. -/
theorem c10_witness :
    (markHiveAsSold "HIVE-001" "0.0.1234" "1" "t" true
      { hivesFile := .error "ENOENT", requireCache := none } =
      { hivesFile := .error "ENOENT", requireCache := none }) ∧
    (markHiveAsSold "HIVE-404" "0.0.1234" "1" "t" true demoState =
      demoState) ∧
    markHiveAsSold "HIVE-001" "0.0.1234" "1" "t" false demoState =
      demoState ∧
    ((buyHive demoReq demoEnvWriteFail demoState).1.status = 200 ∧
     (buyHive demoReq demoEnvWriteFail demoState).1.success = true ∧
     (buyHive demoReq demoEnvWriteFail demoState).1.message =
       some "NFT minted and transferred to your wallet!" ∧
     (buyHive demoReq demoEnvWriteFail demoState).2.1.hivesFile =
       demoState.hivesFile) := by
  have h := c10_marksold_swallows_failures "HIVE-001" "0.0.1234" "1" "t"
    true { hivesFile := .error "ENOENT", requireCache := none } "ENOENT"
    [demoHive] demoReq demoEnvWriteFail demoState demoStateCached
    [demoHive] demoHive "hive:HIVE-001" 1
    "0.0.1111@1700000000.000000001" (by decide) (by decide) (by decide)
    (by decide) (by decide) (by decide) (by decide) (by decide)
    (by decide) (by decide) (by decide) (by decide)
  have h2 := c10_marksold_swallows_failures "HIVE-404" "0.0.1234" "1" "t"
    true demoState "ENOENT" [demoHive] demoReq demoEnvWriteFail demoState
    demoStateCached [demoHive] demoHive "hive:HIVE-001" 1
    "0.0.1111@1700000000.000000001" (by decide) (by decide) (by decide)
    (by decide) (by decide) (by decide) (by decide) (by decide)
    (by decide) (by decide) (by decide) (by decide)
  have h3 := c10_marksold_swallows_failures "HIVE-001" "0.0.1234" "1" "t"
    false demoState "ENOENT" [demoHive] demoReq demoEnvWriteFail demoState
    demoStateCached [demoHive] demoHive "hive:HIVE-001" 1
    "0.0.1111@1700000000.000000001" (by decide) (by decide) (by decide)
    (by decide) (by decide) (by decide) (by decide) (by decide)
    (by decide) (by decide) (by decide) (by decide)
  exact ⟨h.1 (by decide), h2.2.1 (by decide) (by decide), h3.2.2.1,
    h.2.2.2⟩
